import Mathlib

/-!
Shallow embedding of the assertion and converge logic of the
mitodl/salt-extensions repository, together with theorems settling the
frozen claims about its specification.

Embedded modules:
* `src/_modules/testinframod.py` — the `comparisons` table and
  `_apply_assertion`.
* `src/extensions/_beacons/http_status.py` — the beacon comparison table
  and the `beacon` site loop.
* `src/extensions/_states/boto_cloudfront.py` — the `present` state.
* `src/extensions/_states/heroku.py` — the module-global diff dictionaries,
  `_diff_heroku_pillar_vars`, `_diff_app_config_vars` and
  `update_app_config_vars`.

Python scalar values are modelled by the inductive `Value`; Python `==`
(which identifies `True` with `1` and `False` with `0`) by `pyEq`;
Python `is` applied to a boolean by `pyIsBool`.  Exceptions are modelled
with `Except`, threading of module-level globals is explicit, and each
call into a `__salt__` collaborator is a field of an environment
structure supplied by the caller.
-/

deriving instance DecidableEq for Except

/-- A Python scalar value as handled by the assertion helpers:
a boolean, an integer, or a string. -/
inductive Value where
  | bool (b : Bool)
  | int (n : Int)
  | str (s : String)
deriving DecidableEq, Repr

/-- The numeric content of a Python value: `True` counts as `1` and
`False` as `0`, mirroring `bool` being a subtype of `int` in Python. -/
def Value.toPyNum : Value → Option Int
  | .bool b => some (if b then 1 else 0)
  | .int n => some n
  | .str _ => none

/-- Python `==` on scalar values: numeric values (including booleans)
compare by numeric value, strings compare by content, and a number never
equals a string. -/
def pyEq (a b : Value) : Bool :=
  match a.toPyNum, b.toPyNum with
  | some x, some y => x == y
  | _, _ =>
    match a, b with
    | .str s, .str t => s == t
    | _, _ => false

/-- Python `is` with a boolean right operand: true exactly when the left
operand is the same boolean singleton. -/
def pyIsBool (v : Value) (b : Bool) : Bool :=
  match v with
  | .bool b2 => b2 == b
  | _ => false

/-- Python `<` on scalar values: defined between two numbers
(booleans counting as 0/1) and between two strings; any mixed pair
raises a `TypeError`, modelled as `none`. -/
def pyLtOpt (a b : Value) : Option Bool :=
  match a.toPyNum, b.toPyNum with
  | some x, some y => some (decide (x < y))
  | _, _ =>
    match a, b with
    | .str s, .str t => some (decide (s < t))
    | _, _ => none

/-- Python exceptions that the embedded code can raise. -/
inductive PyError where
  | keyError (k : String)
  | typeError
  | unboundLocalError
deriving DecidableEq, Repr

/-- The six binary operators from Python's `operator` module that the
sources place in their comparison tables. -/
inductive PyOp where
  | opEq
  | opNe
  | opLt
  | opLe
  | opGt
  | opGe
deriving DecidableEq, Repr

/-- Application of an `operator` module function to two scalar values.
Equality operators are total; order operators raise `TypeError` on a
number/string mixed pair. -/
def applyOp : PyOp → Value → Value → Except PyError Bool
  | .opEq, a, b => .ok (pyEq a b)
  | .opNe, a, b => .ok (!pyEq a b)
  | .opLt, a, b =>
    match pyLtOpt a b with
    | some r => .ok r
    | none => .error .typeError
  | .opLe, a, b =>
    match pyLtOpt b a with
    | some r => .ok (!r)
    | none => .error .typeError
  | .opGt, a, b =>
    match pyLtOpt b a with
    | some r => .ok r
    | none => .error .typeError
  | .opGe, a, b =>
    match pyLtOpt a b with
    | some r => .ok (!r)
    | none => .error .typeError

/-- The module-level `comparisons` dict of `testinframod.py`, as written
in the source — note that the key `lt` is bound to `operator.eq` there.
Lookup of a missing key is `none` (a `KeyError` at use sites). -/
def comparisons : String → Option PyOp
  | "lt" => some .opEq
  | "le" => some .opLe
  | "eq" => some .opEq
  | "ne" => some .opNe
  | "ge" => some .opGe
  | "gt" => some .opGt
  | _ => none

/-- The `expected` argument of `_apply_assertion`: either a bare scalar
literal (only a boolean is accepted) or a dict
`{'match': value, 'comparison': kind}`. -/
inductive Expected where
  | lit (v : Value)
  | dict (match_value : Value) (comparison : String)
deriving DecidableEq, Repr

/-- The function `testinframod._apply_assertion(expected, result)`.
A bare boolean is checked with `is`; a dict whose `match` value is a
boolean is also checked with `is`, ignoring the comparison key; any
other dict looks up its comparison string in `comparisons`
(`KeyError` when absent) and applies it as `comparison(result, match)`;
a bare non-boolean raises `TypeError`. -/
def apply_assertion : Expected → Value → Except PyError Bool
  | .lit (.bool b), result => .ok (pyIsBool result b)
  | .lit _, _ => .error .typeError
  | .dict m c, result =>
    match m with
    | .bool b => .ok (pyIsBool result b)
    | _ =>
      match comparisons c with
      | none => .error (.keyError c)
      | some op => applyOp op result m

/-! ## `http_status.py` beacon -/

/-- An entry of the beacon's `comparisons` dict: one of the six
`operator` functions, or `re.search`. -/
inductive BeaconOp where
  | op (o : PyOp)
  | opSearch
deriving DecidableEq, Repr

/-- The module-level `comparisons` dict of `http_status.py`; unlike the
testinfra table it is keyed by operator symbols and adds `search`. -/
def beacon_comparisons : String → Option BeaconOp
  | "==" => some (.op .opEq)
  | "<" => some (.op .opLt)
  | ">" => some (.op .opGt)
  | "<=" => some (.op .opLe)
  | ">=" => some (.op .opGe)
  | "!=" => some (.op .opNe)
  | "search" => some .opSearch
  | _ => none

/-- Application of a beacon comparison.  `re.search` is abstracted by an
oracle `search pattern text`; applying it to non-strings is a
`TypeError`. -/
def applyBeaconOp (search : String → String → Bool) :
    BeaconOp → Value → Value → Except PyError Bool
  | .op o, a, b => applyOp o a b
  | .opSearch, .str p, .str s => .ok (search p s)
  | .opSearch, _, _ => .error .typeError

/-- An HTTP response as the beacon consumes it: the status code, the
parsed JSON body exposed through
`salt.utils.data.traverse_dict_and_list` (a lookup from a colon path to
the value there, `none` when nothing is found), and the text body. -/
structure Response where
  status_code : Int
  json : String → Option Value
  text : String

/-- One entry of a site's `json_response` list. -/
structure JsonItem where
  path : String
  value : Value
  comp : String
deriving DecidableEq, Repr

/-- One entry of a site's `html_response` list (the `path` key of such
entries is never read by the loop). -/
structure HtmlItem where
  value : Value
  comp : String
deriving DecidableEq, Repr

/-- The per-site configuration keys the beacon reads. -/
structure SiteConfig where
  url : String
  json_response : List JsonItem := []
  html_response : List HtmlItem := []

/-- An event dict appended to the beacon's return list. -/
inductive Event where
  | status_failed (status_code : Int)
  | json_failed (expected received : Value) (url path : String)
  | keyword (k : Value)
deriving DecidableEq, Repr

/-- Outcome of `requests.get`: a response, or a raised
`requests.exceptions.RequestException`. -/
inductive ReqResult where
  | ok (r : Response)
  | exn

/-- Processing of one `json_response` item, threading the function
local `expected_value` of `beacon` (bound only when an item with a
known comparison kind is processed).  A known kind first binds
`expected_value`, then skips when the path has no data, and otherwise
applies `comp(expected_value, received_value)`, appending a failure
dict on mismatch.  An unknown kind takes the `else` branch, whose
`log.info` call reads `expected_value`: an `UnboundLocalError` when no
earlier item bound it, and otherwise only a log line with the stale
value — no event and no error. -/
def processJsonItem (search : String → String → Bool) (r : Response) (url : String)
    (it : JsonItem) (expected_value : Option Value) :
    Except PyError (List Event × Option Value) :=
  match beacon_comparisons it.comp with
  | some comp =>
    match r.json it.path with
    | none => .ok ([], some it.value)
    | some received =>
      match applyBeaconOp search comp it.value received with
      | .error e => .error e
      | .ok true => .ok ([], some it.value)
      | .ok false => .ok ([.json_failed it.value received url it.path], some it.value)
  | none =>
    match expected_value with
    | none => .error .unboundLocalError
    | some _ => .ok ([], expected_value)

/-- Processing of one `html_response` item: here the comparison kind is
looked up without a membership guard, so an unknown kind raises
`KeyError`; a known one is applied as `comp(search_value, r.text)`. -/
def processHtmlItem (search : String → String → Bool) (r : Response)
    (it : HtmlItem) : Except PyError (List Event) :=
  match beacon_comparisons it.comp with
  | none => .error (.keyError it.comp)
  | some comp =>
    match applyBeaconOp search comp it.value (.str r.text) with
    | .error e => .error e
    | .ok true => .ok []
    | .ok false => .ok [.keyword it.value]

/-- Sequencing of the `json_response` items of one site, threading the
`expected_value` binding from item to item, concatenating the produced
events and propagating the first raised exception. -/
def processJsonItems (search : String → String → Bool) (r : Response) (url : String) :
    List JsonItem → Option Value → Except PyError (List Event × Option Value)
  | [], ev => .ok ([], ev)
  | it :: rest, ev =>
    match processJsonItem search r url it ev with
    | .error e => .error e
    | .ok (evs, ev1) =>
      match processJsonItems search r url rest ev1 with
      | .error e => .error e
      | .ok (evs2, ev2) => .ok (evs ++ evs2, ev2)

/-- Sequencing of the `html_response` item processor over a list,
concatenating the produced events and propagating the first raised
exception. -/
def processItems {β : Type} (f : β → Except PyError (List Event)) :
    List β → Except PyError (List Event)
  | [] => .ok []
  | it :: rest =>
    match f it with
    | .error e => .error e
    | .ok evs =>
      match processItems f rest with
      | .error e => .error e
      | .ok evs2 => .ok (evs ++ evs2)

/-- The site loop of `http_status.beacon`.  The accumulator `rPrev`
models the Python local variable `r`, which survives from one loop
iteration to the next: when `requests.get` raises, the handler
evaluates `r.raise_for_status` — an `UnboundLocalError` if no earlier
iteration bound `r`, and otherwise a bound method (always truthy, it is
never called), so the stale previous response's status code is
reported.  A response that did arrive is processed regardless of its
status code.  The accumulator `ev` likewise models the function local
`expected_value`, which survives across items and across sites. -/
def beaconLoop (search : String → String → Bool) (http : String → ReqResult) :
    List (String × SiteConfig) → Option Response → Option Value → List Event →
      Except PyError (List Event)
  | [], _, _, acc => .ok acc
  | (_, cfg) :: rest, rPrev, ev, acc =>
    match http cfg.url with
    | .exn =>
      match rPrev with
      | none => .error .unboundLocalError
      | some r =>
        beaconLoop search http rest (some r) ev (acc ++ [.status_failed r.status_code])
    | .ok r =>
      match processJsonItems search r cfg.url cfg.json_response ev with
      | .error e => .error e
      | .ok (evs1, ev1) =>
        match processItems (processHtmlItem search r) cfg.html_response with
        | .error e => .error e
        | .ok evs2 => beaconLoop search http rest (some r) ev1 (acc ++ evs1 ++ evs2)

/-- The function `http_status.beacon(config)`, with the merged `sites` mapping given
as an association list and HTTP issuance abstracted by `http`; the
locals `r` and `expected_value` start the loop unbound. -/
def beacon (search : String → String → Bool) (http : String → ReqResult)
    (sites : List (String × SiteConfig)) : Except PyError (List Event) :=
  beaconLoop search http sites none none []

/-! ## `boto_cloudfront.py` `present` state -/

/-- A `__salt__['boto_cloudfront.*']` return value: a dict that either
has an `error` key or a `result` key. -/
inductive SaltResult (α : Type) where
  | error (msg : String)
  | result (val : α)
deriving DecidableEq, Repr

/-- The parts of a fetched distribution that `present` reads:
`old['distribution']['DistributionConfig']` and `old['tags']`. -/
structure CfDist (α : Type) where
  distributionConfig : α
  tags : α
deriving DecidableEq, Repr

/-- The `{'config': …, 'tags': …}` dicts diffed by `present`. -/
structure FullConfig (α : Type) where
  config : α
  tags : α
deriving DecidableEq, Repr

/-- The dict returned by `__utils__['dictdiffer.deep_diff']`; `present`
only tests membership of the keys `old` and `new`. -/
structure DeepDiffResult (β : Type) where
  old : Option β := none
  new : Option β := none
deriving DecidableEq, Repr

/-- The possible shapes of the `changes`/`pchanges` values built by
`present`: the initial empty dict, the creation record
`{'old': None, 'new': name}`, or the update record `{'diff': text}`. -/
inductive CfChanges where
  | empty
  | old_new (old : Option String) (new : String)
  | diff (d : String)
deriving DecidableEq, Repr

/-- The return dict of the `present` state.  The source also writes a
misspelled key `coment` on one path; it is kept as its own field so the
written dict is modelled exactly. -/
structure StateRet where
  name : String
  comment : String
  changes : CfChanges
  result : Option Bool
  coment : Option String := none
  pchanges : Option CfChanges := none
deriving DecidableEq, Repr

/-- The collaborators `present` calls, fixed for one invocation:
the three `__salt__['boto_cloudfront.*']` results and the two diff
utilities (`dictdiffer.deep_diff` and the `difflib`/YAML rendering that
builds `changes_diff`). -/
structure CloudfrontEnv (α β : Type) where
  get_distribution : SaltResult (Option (CfDist α))
  create_distribution : SaltResult Unit
  update_distribution : SaltResult Unit
  deep_diff : FullConfig α → FullConfig α → DeepDiffResult β
  changes_diff : FullConfig α → FullConfig α → String

/-- The state `boto_cloudfront.present(name, config, tags, …)` with
`__opts__['test']` passed as `test`.  Returns the state return dict and
the number of apply calls made (`create_distribution` plus
`update_distribution` invocations). -/
def present {α β : Type} (name : String) (config tags : α) (test : Bool)
    (env : CloudfrontEnv α β) : StateRet × Nat :=
  match env.get_distribution with
  | .error e =>
    ({ name, comment := "Error checking distribution: " ++ e,
       changes := .empty, result := some false }, 0)
  | .result none =>
    if test then
      ({ name, comment := "Distribution " ++ name ++ " set for creation",
         changes := .empty, result := none, pchanges := some (.old_new none name) }, 0)
    else
      match env.create_distribution with
      | .error e =>
        ({ name, comment := "Error creating distribution: " ++ e,
           changes := .empty, result := some false }, 1)
      | .result _ =>
        ({ name, comment := "Created distribution " ++ name,
           changes := .old_new none name, result := some true }, 1)
  | .result (some old) =>
    let full_config_old : FullConfig α := { config := old.distributionConfig, tags := old.tags }
    let full_config_new : FullConfig α := { config := config, tags := tags }
    let diffed_config := env.deep_diff full_config_old full_config_new
    let changes_diff := env.changes_diff full_config_old full_config_new
    let any_changes := diffed_config.old.isSome || diffed_config.new.isSome
    if !any_changes then
      ({ name, comment := "", changes := .empty, result := some true,
         coment := some ("Distribution " ++ name ++ " has correct config") }, 0)
    else if test then
      ({ name, comment := "Distribution \x7b0\x7d set for new config:\n" ++ changes_diff,
         changes := .empty, result := none, pchanges := some (.diff changes_diff) }, 0)
    else
      match env.update_distribution with
      | .error e =>
        ({ name, comment := "Error updating distribution: " ++ e,
           changes := .empty, result := some false }, 1)
      | .result _ =>
        ({ name, comment := "Updated distribution " ++ name ++ ".",
           changes := .diff changes_diff, result := some true }, 1)

/-- Whether an invocation of `present` faces a non-empty difference
between desired and observed state: either the distribution is absent
(creation pending), or it exists and `deep_diff` reports a change.  A
fetch error counts as no pending change. -/
def cloudfrontPendingChange {α β : Type} (config tags : α)
    (env : CloudfrontEnv α β) : Bool :=
  match env.get_distribution with
  | .error _ => false
  | .result none => true
  | .result (some old) =>
    let d := env.deep_diff { config := old.distributionConfig, tags := old.tags }
      { config := config, tags := tags }
    d.old.isSome || d.new.isSome

/-! ## `heroku.py` state module -/

/-- A config-vars dict, as an association list with distinct keys (the
shape Python dicts give it). -/
abbrev ConfigVars := List (String × String)

/-- Python `set(a.items()).difference(set(b.items()))` realised on
association lists: the items of `a` that are not items of `b`. -/
def itemsDiff (a b : ConfigVars) : ConfigVars :=
  a.filter (fun p => !b.contains p)

/-- Whether `set(a.items()).symmetric_difference(set(b.items()))` is
non-empty. -/
def symmDiffNonempty (a b : ConfigVars) : Bool :=
  !(itemsDiff a b).isEmpty || !(itemsDiff b a).isEmpty

/-- The module-level globals of `heroku.py`: the three flags of
`diff_heroku_pillar_dict` and the two diff dicts `heroku_diff_dict`
and `pillar_diff_dict`. -/
structure HerokuGlobals where
  key_or_value_mismatch : Bool
  heroku_not_pillar : Bool
  pillar_not_heroku : Bool
  heroku_diff_dict : ConfigVars
  pillar_diff_dict : ConfigVars
deriving DecidableEq, Repr

/-- The values the globals are initialised to at module load. -/
def herokuGlobalsInit : HerokuGlobals :=
  { key_or_value_mismatch := false, heroku_not_pillar := false,
    pillar_not_heroku := false, heroku_diff_dict := [], pillar_diff_dict := [] }

/-- The helper `heroku._diff_heroku_pillar_vars(app_config_vars, config_vars)` in
state-passing form: the mutation of the module globals is made explicit.
Note that the three flags are only ever set to `True`, never cleared. -/
def diff_heroku_pillar_vars (g : HerokuGlobals)
    (app_config_vars config_vars : ConfigVars) : HerokuGlobals :=
  let g1 :=
    if symmDiffNonempty app_config_vars config_vars then
      { g with key_or_value_mismatch := true,
               heroku_diff_dict := itemsDiff app_config_vars config_vars,
               pillar_diff_dict := itemsDiff config_vars app_config_vars }
    else g
  let g2 :=
    if (app_config_vars.length : Int) - config_vars.length > 0 then
      { g1 with heroku_not_pillar := true }
    else g1
  if (app_config_vars.length : Int) - config_vars.length < 0 then
    { g2 with pillar_not_heroku := true }
  else g2

/-- The test `all(not v for v in diff_heroku_pillar_dict.values())`. -/
def flagsAllFalse (g : HerokuGlobals) : Bool :=
  !g.key_or_value_mismatch && !g.heroku_not_pillar && !g.pillar_not_heroku

/-- The shapes the `changes` value of a heroku state return can take:
the initial empty dict, the mismatch record
`{'old': {'heroku': …, 'pillar': …}}`, the whole diff return dict
(test mode of `update_app_config_vars`), or the post-update record
`{'new': {'heroku': …}}`. -/
inductive HerokuChanges where
  | empty
  | old_diff (heroku pillar : ConfigVars)
  | nested (name comment : String) (result : Option Bool) (changes : HerokuChanges)
  | new_vars (vars : ConfigVars)
deriving DecidableEq, Repr

/-- A heroku state return dict. -/
structure HerokuRet where
  name : String
  comment : String
  result : Option Bool
  changes : HerokuChanges
deriving DecidableEq, Repr

/-- The helper `heroku._diff_app_config_vars(name, config_vars, api_key)` with the
module globals threaded explicitly and the
`__salt__['heroku.list_app_config_vars']` call abstracted as `fetch`.
A raised fetch is swallowed by the bare `except`: the result flag is set
to `False` and the comment keeps its initial empty value. -/
def diff_app_config_vars (g : HerokuGlobals) (name : String)
    (config_vars : ConfigVars) (fetch : Except String ConfigVars) :
    HerokuGlobals × HerokuRet :=
  match fetch with
  | .error _ =>
    (g, { name, comment := "", result := some false, changes := .empty })
  | .ok app_config_vars =>
    let g1 := diff_heroku_pillar_vars g app_config_vars config_vars
    if flagsAllFalse g1 then
      (g1, { name, comment := "No changes detected", result := some true,
             changes := .empty })
    else
      (g1, { name, comment := "Pillar and Heroku mismatch", result := some false,
             changes := .old_diff g1.heroku_diff_dict g1.pillar_diff_dict })

/-- The collaborators of `heroku.update_app_config_vars`, fixed for one
invocation: the first `list_app_config_vars` fetch, the
`__salt__['heroku.update_app_config_vars']` apply call, and the
re-fetch performed after a successful apply. -/
structure HerokuEnv where
  list_app_config_vars : Except String ConfigVars
  update_config_vars : Except String Unit
  list_after_update : Except String ConfigVars

/-- Outcome of one invocation of the `update_app_config_vars` state:
the final module globals, the return dict (or an exception escaping the
function, which the non-test branch does not catch), and the number of
apply (`__salt__['heroku.update_app_config_vars']`) calls made. -/
structure HerokuStep where
  globals : HerokuGlobals
  ret : Except String HerokuRet
  applyCalls : Nat

/-- The state `heroku.update_app_config_vars(name, config_vars, api_key)` with
`__opts__['test']` passed as `test`.  In test mode the whole diff return
dict becomes the `changes` value; otherwise the apply call is guarded by
`any(v for v in diff_heroku_pillar_dict.values())` read from the module
globals. -/
def update_app_config_vars (g : HerokuGlobals) (name : String)
    (config_vars : ConfigVars) (test : Bool) (env : HerokuEnv) : HerokuStep :=
  let step := diff_app_config_vars g name config_vars env.list_app_config_vars
  let g1 := step.1
  let diffRet := step.2
  if test then
    { globals := g1,
      ret := .ok { name, comment := "Following changes would be performed",
                   result := none,
                   changes := .nested diffRet.name diffRet.comment diffRet.result
                     diffRet.changes },
      applyCalls := 0 }
  else if !flagsAllFalse g1 then
    match env.update_config_vars with
    | .error e => { globals := g1, ret := .error e, applyCalls := 1 }
    | .ok _ =>
      match env.list_after_update with
      | .error e => { globals := g1, ret := .error e, applyCalls := 1 }
      | .ok new_app_config_vars =>
        { globals := g1,
          ret := .ok { name, comment := "", result := some true,
                       changes := .new_vars new_app_config_vars },
          applyCalls := 1 }
  else
    { globals := g1,
      ret := .ok { name, comment := "", result := some true, changes := .empty },
      applyCalls := 0 }

/-- The `result` field of the return dict of a heroku state invocation,
when the invocation returned rather than raised. -/
def HerokuStep.retResult (s : HerokuStep) : Option (Option Bool) :=
  match s.ret with
  | .ok r => some r.result
  | .error _ => none

/-! ## Concrete instances used by witnesses and counterexamples -/

/-- An environment in which the distribution does not exist yet and the
create call succeeds. -/
def cfEnvCreate : CloudfrontEnv Unit Unit :=
  { get_distribution := .result none, create_distribution := .result (),
    update_distribution := .result (),
    deep_diff := fun _ _ => {}, changes_diff := fun _ _ => "" }

/-- An environment in which the distribution exists and `deep_diff`
reports no difference. -/
def cfEnvEqual : CloudfrontEnv Unit Unit :=
  { get_distribution := .result (some { distributionConfig := (), tags := () }),
    create_distribution := .result (), update_distribution := .result (),
    deep_diff := fun _ _ => {}, changes_diff := fun _ _ => "" }

/-- An environment in which the distribution exists, `deep_diff` reports
a difference, and the rendered text diff is `"DIFFSTR"`. -/
def cfEnvChanged : CloudfrontEnv Unit Unit :=
  { get_distribution := .result (some { distributionConfig := (), tags := () }),
    create_distribution := .result (), update_distribution := .result (),
    deep_diff := fun _ _ => { old := some (), new := some () },
    changes_diff := fun _ _ => "DIFFSTR" }

/-- A heroku environment whose fetched config vars are `{a: 1}`. -/
def herokuEnvA1 : HerokuEnv :=
  { list_app_config_vars := .ok [("a", "1")], update_config_vars := .ok (),
    list_after_update := .ok [("a", "2")] }

/-- A trivial `re.search` oracle. -/
def noSearch : String → String → Bool := fun _ _ => false

/-- A 200 response whose JSON lookup yields `v` at every path. -/
def respOk (v : Value) : Response :=
  { status_code := 200, json := fun _ => some v, text := "" }

/-- HTTP oracle returning a 200 response with JSON value `v`. -/
def httpAlwaysOk (v : Value) : String → ReqResult := fun _ => .ok (respOk v)

/-- HTTP oracle in which every request raises a `RequestException`. -/
def httpAlwaysFails : String → ReqResult := fun _ => .exn

/-- HTTP oracle returning a 500 response with an empty body. -/
def http500 : String → ReqResult :=
  fun _ => .ok { status_code := 500, json := fun _ => none, text := "" }

/-- A site configuration carrying only a `url`. -/
def siteUrlOnly : SiteConfig := { url := "https://example.com/status" }

/-- A site with one `json_response` item using the unknown comparison
kind `between` and an expected value that differs from the response. -/
def siteBetween : SiteConfig :=
  { url := "https://example.com/status",
    json_response := [{ path := "redis:status", value := .int 1, comp := "between" }] }

/-- A site whose first `json_response` item uses the known kind `==`
(binding the local `expected_value`) and whose second item uses the
unknown kind `between` with a mismatching expected value. -/
def siteEqThenBetween : SiteConfig :=
  { url := "https://example.com/status",
    json_response :=
      [{ path := "redis:status", value := .int 5, comp := "==" },
       { path := "redis:status", value := .int 1, comp := "between" }] }

/-! ## Theorems settling the claims -/

/-- Helper: the `key_or_value_mismatch` flag of the module globals is
only ever set by `diff_heroku_pillar_vars`, never cleared. -/
theorem key_flag_monotone (g : HerokuGlobals) (a b : ConfigVars)
    (h : g.key_or_value_mismatch = true) :
    (diff_heroku_pillar_vars g a b).key_or_value_mismatch = true := by
  unfold diff_heroku_pillar_vars
  split_ifs <;> simp_all

/-- Claim C1: with `__opts__['test']` true and a non-empty difference
between desired and observed state, `boto_cloudfront.present` returns
`result` `None` and performs no create/update call, and
`heroku.update_app_config_vars` returns `result` `None` and performs no
apply call. -/
theorem C1_dry_run_never_applies {α β : Type} (name : String) (config tags : α)
    (env : CloudfrontEnv α β)
    (hdiff : cloudfrontPendingChange config tags env = true)
    (g : HerokuGlobals) (hname : String) (cv : ConfigVars) (henv : HerokuEnv) :
    ((present name config tags true env).1.result = none ∧
      (present name config tags true env).2 = 0) ∧
    ((update_app_config_vars g hname cv true henv).retResult = some none ∧
      (update_app_config_vars g hname cv true henv).applyCalls = 0) := by
  refine ⟨?_, rfl, rfl⟩
  unfold cloudfrontPendingChange at hdiff
  cases h : env.get_distribution with
  | error e => rw [h] at hdiff; simp at hdiff
  | result v =>
    cases v with
    | none => simp [present, h]
    | some old =>
      rw [h] at hdiff
      simp only [] at hdiff
      simp [present, h, hdiff]

/-- Witness for C1 at a concrete pending creation and a concrete heroku
invocation. -/
theorem C1_witness :
    (cloudfrontPendingChange () () cfEnvCreate = true) ∧
    ((present "d" () () true cfEnvCreate).1.result = none ∧
      (present "d" () () true cfEnvCreate).2 = 0) ∧
    ((update_app_config_vars herokuGlobalsInit "app" [("a", "2")] true
        herokuEnvA1).retResult = some none ∧
      (update_app_config_vars herokuGlobalsInit "app" [("a", "2")] true
        herokuEnvA1).applyCalls = 0) :=
  ⟨by decide,
    C1_dry_run_never_applies "d" () () cfEnvCreate (by decide)
      herokuGlobalsInit "app" [("a", "2")] herokuEnvA1⟩

/-- Claim C2 (code bug): with an existing distribution and an empty
diff, `present` returns `result` `True`, empty `changes` and no apply
call, but the success message is assigned to the misspelled key
`coment`, so the `comment` field of the return dict stays empty instead
of reading `Distribution <name> has correct config`. -/
theorem C2_empty_diff_comment_typo :
    (present "d" () () false cfEnvEqual).1.result = some true ∧
    (present "d" () () false cfEnvEqual).1.changes = CfChanges.empty ∧
    (present "d" () () false cfEnvEqual).2 = 0 ∧
    (present "d" () () false cfEnvEqual).1.comment = "" ∧
    (present "d" () () false cfEnvEqual).1.coment =
      some "Distribution d has correct config" :=
  ⟨rfl, rfl, rfl, rfl, rfl⟩

/-- Claim C3 (code bug): the `comparisons` table of `testinframod.py`
binds the key `lt` to `operator.eq`, so
`_apply_assertion({'match': 2, 'comparison': 'lt'}, 1)` evaluates
`eq(1, 2)` and returns `False`, although the docstring (and the module's
own unit test) call for less-than, which would give `True`; the `gt`
key does apply `operator.gt` with the observed value on the left. -/
theorem C3_lt_key_bound_to_eq :
    comparisons "lt" = some PyOp.opEq ∧
    apply_assertion (.dict (.int 2) "lt") (.int 1) = .ok false ∧
    apply_assertion (.dict (.int 1) "gt") (.int 2) = .ok true := by decide

/-- Claim C4 (amended): `_apply_assertion` raises a `KeyError` on an
unknown comparison kind and never returns a silent `False`; the
beacon's `json_response` dispatch raises no dedicated unknown-kind
error: its `else` branch only logs the local `expected_value`, so when
no earlier known-kind item bound that local the log call itself raises
`UnboundLocalError`, and when one did, the unknown-kind item is
silently skipped — no event and no error. -/
theorem C4_unknown_comparison_kind (m o : Value) (c : String)
    (hm : ∀ b, m ≠ Value.bool b) (hc : comparisons c = none)
    (search : String → String → Bool) (r : Response) (url : String)
    (it : JsonItem) (hb : beacon_comparisons it.comp = none) (w : Value) :
    apply_assertion (.dict m c) o = .error (.keyError c) ∧
    processJsonItem search r url it none = .error PyError.unboundLocalError ∧
    processJsonItem search r url it (some w) = .ok ([], some w) := by
  refine ⟨?_, ?_, ?_⟩
  · cases m with
    | bool b => exact absurd rfl (hm b)
    | int n => simp [apply_assertion, hc]
    | str s => simp [apply_assertion, hc]
  · simp [processJsonItem, hb]
  · simp [processJsonItem, hb]

/-- Witness for C4 at the comparison kind `between`, with and without a
previously bound `expected_value`. -/
theorem C4_witness :
    apply_assertion (.dict (.int 2) "between") (.int 1) =
      .error (.keyError "between") ∧
    processJsonItem noSearch (respOk (.int 5)) "u"
      { path := "p", value := .int 1, comp := "between" } none =
      .error PyError.unboundLocalError ∧
    processJsonItem noSearch (respOk (.int 5)) "u"
      { path := "p", value := .int 1, comp := "between" } (some (.int 5)) =
      .ok ([], some (.int 5)) :=
  C4_unknown_comparison_kind (.int 2) (.int 1) "between" (by decide) (by decide)
    noSearch (respOk (.int 5)) "u"
    { path := "p", value := .int 1, comp := "between" } (by decide) (.int 5)

/-- Counterexample for C4 as stated: a `json_response` item with the
unknown kind `between` that follows a known-kind item is silently
skipped — the beacon returns an empty event list and raises nothing —
and when the unknown-kind item comes first, the beacon raises an
accidental `UnboundLocalError` rather than any dedicated unknown-kind
error. -/
theorem C4_counterexample :
    beacon_comparisons "between" = none ∧
    beacon noSearch (httpAlwaysOk (.int 5)) [("site1", siteEqThenBetween)] = .ok [] ∧
    beacon noSearch (httpAlwaysOk (.int 5)) [("site1", siteBetween)] =
      .error PyError.unboundLocalError := by
  exact ⟨rfl, rfl, rfl⟩

/-- Counterexample for C5 as stated: the observed value `1` equals the
boolean expectation `True` under Python `==`, yet the assertion fails,
because `_apply_assertion` compares with `is`. -/
theorem C5_counterexample :
    apply_assertion (.lit (.bool true)) (.int 1) = .ok false ∧
    pyEq (.int 1) (.bool true) = true := by decide

/-- Claim C5 (amended): a literal boolean expectation passes exactly
when the observed value is the same boolean (Python `is`), not merely
equal under `==`. -/
theorem C5_boolean_identity (b : Bool) (o : Value) :
    apply_assertion (.lit (.bool b)) o = .ok true ↔ o = Value.bool b := by
  cases o <;> simp [apply_assertion, pyIsBool]

/-- Claim C6: when the distribution is absent and the create call
succeeds (not in test mode), `present` classifies the run as a creation:
comment `Created distribution <name>`, result `True`, and the change
record `{'old': None, 'new': name}`, which is distinct from every
update record `{'diff': …}`. -/
theorem C6_creation_change_record {α β : Type} (name : String) (config tags : α)
    (env : CloudfrontEnv α β)
    (hobs : env.get_distribution = .result none)
    (hcreate : env.create_distribution = .result ()) :
    (present name config tags false env).1.changes = CfChanges.old_new none name ∧
    (present name config tags false env).1.comment = "Created distribution " ++ name ∧
    (present name config tags false env).1.result = some true ∧
    ∀ d, CfChanges.old_new none name ≠ CfChanges.diff d := by
  simp [present, hobs, hcreate]

/-- Witness for C6 at a concrete absent distribution. -/
theorem C6_witness :
    (present "d" () () false cfEnvCreate).1.changes = CfChanges.old_new none "d" ∧
    (present "d" () () false cfEnvCreate).1.comment = "Created distribution " ++ "d" ∧
    (present "d" () () false cfEnvCreate).1.result = some true ∧
    ∀ d, CfChanges.old_new none "d" ≠ CfChanges.diff d :=
  C6_creation_change_record "d" () () cfEnvCreate rfl rfl

/-- Counterexample for C7 as stated: in test mode with a non-empty
diff, the `changes` field of the return dict stays empty — the rendered
diff is carried in `pchanges` instead. -/
theorem C7_counterexample :
    (present "d" () () true cfEnvChanged).1.changes = CfChanges.empty ∧
    (present "d" () () true cfEnvChanged).1.pchanges =
      some (CfChanges.diff "DIFFSTR") ∧
    CfChanges.empty ≠ CfChanges.diff "DIFFSTR" := by decide

/-- Claim C7 (amended): with an existing distribution, a non-empty diff
and test mode, `present` returns `result` `None`, keeps `changes` empty,
carries `{'diff': <rendered diff>}` in `pchanges`, and the comment joins
the unformatted literal `Distribution {0} set for new config:` with the
rendered diff. -/
theorem C7_dry_run_diff_in_pchanges {α β : Type} (name : String)
    (config tags : α) (env : CloudfrontEnv α β) (old : CfDist α)
    (hobs : env.get_distribution = .result (some old))
    (hdiff :
      ((env.deep_diff { config := old.distributionConfig, tags := old.tags }
          { config := config, tags := tags }).old.isSome ||
        (env.deep_diff { config := old.distributionConfig, tags := old.tags }
          { config := config, tags := tags }).new.isSome) = true) :
    (present name config tags true env).1.result = none ∧
    (present name config tags true env).1.changes = CfChanges.empty ∧
    (present name config tags true env).1.pchanges =
      some (CfChanges.diff (env.changes_diff
        { config := old.distributionConfig, tags := old.tags }
        { config := config, tags := tags })) ∧
    (present name config tags true env).1.comment =
      "Distribution \x7b0\x7d set for new config:\n" ++ env.changes_diff
        { config := old.distributionConfig, tags := old.tags }
        { config := config, tags := tags } := by
  simp [present, hobs, hdiff]

/-- Witness for C7 at a concrete changed distribution. -/
theorem C7_witness :
    (present "d" () () true cfEnvChanged).1.result = none ∧
    (present "d" () () true cfEnvChanged).1.changes = CfChanges.empty ∧
    (present "d" () () true cfEnvChanged).1.pchanges =
      some (CfChanges.diff (cfEnvChanged.changes_diff
        { config := (), tags := () } { config := (), tags := () })) ∧
    (present "d" () () true cfEnvChanged).1.comment =
      "Distribution \x7b0\x7d set for new config:\n" ++ cfEnvChanged.changes_diff
        { config := (), tags := () } { config := (), tags := () } :=
  C7_dry_run_diff_in_pchanges "d" () () cfEnvChanged
    { distributionConfig := (), tags := () } rfl (by decide)

/-- Claim C8 (code bug): a transport failure on the first probed site
makes the beacon's `except` handler evaluate `r.raise_for_status` with
the local `r` never having been bound, so an `UnboundLocalError`
escapes the beacon; and a plain non-2xx response (no transport failure)
appends no failed event at all, since `raise_for_status` is never
actually called. -/
theorem C8_beacon_failures :
    beacon noSearch httpAlwaysFails [("site1", siteUrlOnly)] =
      .error PyError.unboundLocalError ∧
    beacon noSearch http500 [("site1", siteUrlOnly)] = .ok [] := by
  exact ⟨rfl, rfl⟩

/-- Counterexample for C9 as stated: the very same diff invocation on a
structurally equal pair reports `True` when the module globals are
fresh, but `False` right after a first invocation on a mismatching
pair — the second result does not depend only on its own inputs. -/
theorem C9_counterexample :
    ((diff_app_config_vars (diff_heroku_pillar_vars herokuGlobalsInit
        [("a", "1")] [("a", "2")]) "app" [("a", "1")]
        (.ok [("a", "1")])).2).result = some false ∧
    ((diff_app_config_vars herokuGlobalsInit "app" [("a", "1")]
        (.ok [("a", "1")])).2).result = some true := by decide

/-- Claim C9 (amended): the heroku diff helpers carry hidden state —
the module-level mismatch flags are never cleared, so after any diff
run that set `key_or_value_mismatch`, a later `_diff_app_config_vars`
on a pair whose fetched and desired vars are equal still reports
`result: False` with the mismatch comment. -/
theorem C9_second_run_sees_stale_flags (g : HerokuGlobals)
    (a b c : ConfigVars) (name : String)
    (hmis : (diff_heroku_pillar_vars g a b).key_or_value_mismatch = true) :
    ((diff_app_config_vars (diff_heroku_pillar_vars g a b) name c
        (.ok c)).2).result = some false ∧
    ((diff_app_config_vars (diff_heroku_pillar_vars g a b) name c
        (.ok c)).2).comment = "Pillar and Heroku mismatch" := by
  have h2 := key_flag_monotone (diff_heroku_pillar_vars g a b) c c hmis
  have hflags :
      flagsAllFalse (diff_heroku_pillar_vars (diff_heroku_pillar_vars g a b) c c)
        = false := by
    unfold flagsAllFalse
    simp [h2]
  simp [diff_app_config_vars, hflags]

/-- Witness for C9 at the concrete stale-state scenario. -/
theorem C9_witness :
    ((diff_app_config_vars (diff_heroku_pillar_vars herokuGlobalsInit
        [("a", "1")] [("a", "2")]) "app" [("b", "7")]
        (.ok [("b", "7")])).2).result = some false ∧
    ((diff_app_config_vars (diff_heroku_pillar_vars herokuGlobalsInit
        [("a", "1")] [("a", "2")]) "app" [("b", "7")]
        (.ok [("b", "7")])).2).comment = "Pillar and Heroku mismatch" :=
  C9_second_run_sees_stale_flags herokuGlobalsInit [("a", "1")] [("a", "2")]
    [("b", "7")] "app" (by decide)

/-- Claim C10: when the `match` value of a structured expectation is a
boolean, `_apply_assertion` ignores the comparison kind entirely and
evaluates exactly as the bare boolean expectation: the assertion passes
precisely when the observed value is that boolean. -/
theorem C10_bool_match_ignores_comparison (b : Bool) (c : String) (o : Value) :
    apply_assertion (.dict (.bool b) c) o = apply_assertion (.lit (.bool b)) o ∧
    (apply_assertion (.dict (.bool b) c) o = .ok true ↔ o = Value.bool b) := by
  refine ⟨rfl, ?_⟩
  cases o <;> simp [apply_assertion, pyIsBool]
